import Mathlib

/-
Shallow embedding of `homework.py` (a Telegram homework-status notifier).

Dynamic Python values are modelled by `PyVal`; a Python function that can
raise is modelled as a function into `Except PyErr _`.  The module-level
string constants of the source become Lean functions from their format
arguments to the formatted string (Python's `str.format` with the
placeholder positions of the source).  The external collaborators (the HTTP
transport behind `requests.get` and the Telegram transport behind
`bot.send_message`) are modelled as explicit outcome parameters, exactly as
the spec's section 1 prescribes ("treated as a capability that performs a
GET and returns a status code plus parsed body or raises a transport
error").
-/

namespace HomeworkBot

/-- Dynamic (Python) values the bot manipulates: strings, integers, `None`,
JSON-style lists and string-keyed dictionaries. -/
inductive PyVal where
  | str (s : String)
  | int (n : Int)
  | none
  | list (elems : List PyVal)
  | dict (entries : List (String × PyVal))

mutual

/-- Boolean equality on Python values (structural). -/
def pyBeq : PyVal → PyVal → Bool
  | .str a, .str b => a = b
  | .int a, .int b => a = b
  | .none, .none => true
  | .list a, .list b => pyBeqSeq a b
  | .dict a, .dict b => pyBeqEntries a b
  | _, _ => false

/-- Boolean equality on lists of Python values. -/
def pyBeqSeq : List PyVal → List PyVal → Bool
  | [], [] => true
  | a :: as₁, b :: bs₁ => pyBeq a b && pyBeqSeq as₁ bs₁
  | _, _ => false

/-- Boolean equality on dictionary entry lists. -/
def pyBeqEntries : List (String × PyVal) → List (String × PyVal) → Bool
  | [], [] => true
  | (k₁, v₁) :: as₁, (k₂, v₂) :: bs₁ =>
      (k₁ = k₂ : Bool) && pyBeq v₁ v₂ && pyBeqEntries as₁ bs₁
  | _, _ => false

end

mutual

/-- Reflexivity of `pyBeq`. -/
def pyBeq_refl : (a : PyVal) → pyBeq a a = true
  | .str a => by simp [pyBeq]
  | .int a => by simp [pyBeq]
  | .none => by simp [pyBeq]
  | .list a => by simp [pyBeq, pyBeqSeq_refl a]
  | .dict a => by simp [pyBeq, pyBeqEntries_refl a]

/-- Reflexivity of `pyBeqSeq`. -/
def pyBeqSeq_refl : (l : List PyVal) → pyBeqSeq l l = true
  | [] => by simp [pyBeqSeq]
  | a :: rest => by simp [pyBeqSeq, pyBeq_refl a, pyBeqSeq_refl rest]

/-- Reflexivity of `pyBeqEntries`. -/
def pyBeqEntries_refl : (l : List (String × PyVal)) → pyBeqEntries l l = true
  | [] => by simp [pyBeqEntries]
  | (k, v) :: rest => by
      simp [pyBeqEntries, pyBeq_refl v, pyBeqEntries_refl rest]

end

mutual

/-- Soundness of `pyBeq`. -/
def pyBeq_eq : (a b : PyVal) → pyBeq a b = true → a = b
  | .str a, .str b => by simp [pyBeq]
  | .str _, .int _ => by simp [pyBeq]
  | .str _, .none => by simp [pyBeq]
  | .str _, .list _ => by simp [pyBeq]
  | .str _, .dict _ => by simp [pyBeq]
  | .int a, .int b => by simp [pyBeq]
  | .int _, .str _ => by simp [pyBeq]
  | .int _, .none => by simp [pyBeq]
  | .int _, .list _ => by simp [pyBeq]
  | .int _, .dict _ => by simp [pyBeq]
  | .none, .none => by simp [pyBeq]
  | .none, .str _ => by simp [pyBeq]
  | .none, .int _ => by simp [pyBeq]
  | .none, .list _ => by simp [pyBeq]
  | .none, .dict _ => by simp [pyBeq]
  | .list a, .list b => by
      simp [pyBeq]
      exact fun h => pyBeqSeq_eq a b h
  | .list _, .str _ => by simp [pyBeq]
  | .list _, .int _ => by simp [pyBeq]
  | .list _, .none => by simp [pyBeq]
  | .list _, .dict _ => by simp [pyBeq]
  | .dict a, .dict b => by
      simp [pyBeq]
      exact fun h => pyBeqEntries_eq a b h
  | .dict _, .str _ => by simp [pyBeq]
  | .dict _, .int _ => by simp [pyBeq]
  | .dict _, .none => by simp [pyBeq]
  | .dict _, .list _ => by simp [pyBeq]

/-- Soundness of `pyBeqSeq`. -/
def pyBeqSeq_eq : (a b : List PyVal) → pyBeqSeq a b = true → a = b
  | [], [] => by simp
  | [], _ :: _ => by simp [pyBeqSeq]
  | _ :: _, [] => by simp [pyBeqSeq]
  | a :: as₁, b :: bs₁ => by
      simp only [pyBeqSeq, Bool.and_eq_true, List.cons.injEq]
      exact fun h => ⟨pyBeq_eq a b h.1, pyBeqSeq_eq as₁ bs₁ h.2⟩

/-- Soundness of `pyBeqEntries`. -/
def pyBeqEntries_eq :
    (a b : List (String × PyVal)) → pyBeqEntries a b = true → a = b
  | [], [] => by simp
  | [], _ :: _ => by simp [pyBeqEntries]
  | _ :: _, [] => by simp [pyBeqEntries]
  | (k₁, v₁) :: as₁, (k₂, v₂) :: bs₁ => by
      simp only [pyBeqEntries, Bool.and_eq_true, List.cons.injEq,
        Prod.mk.injEq, decide_eq_true_eq]
      exact fun h => ⟨⟨h.1.1, pyBeq_eq v₁ v₂ h.1.2⟩, pyBeqEntries_eq as₁ bs₁ h.2⟩

end

instance : DecidableEq PyVal := fun a b =>
  if h : pyBeq a b = true then .isTrue (pyBeq_eq a b h)
  else .isFalse fun he => h (he ▸ pyBeq_refl a)

/-- Python exceptions raised by the source, each carrying the rendered
message (for the exception classes used here, `str(exc)` is the message). -/
inductive PyErr where
  | typeError (text : String)
  | valueError (text : String)
  | httpError (text : String)
  | runtimeError (text : String)
  | attributeError (text : String)
deriving DecidableEq

/-- The message `str(error)` of an exception, as interpolated by
`'...'.format(error)` in the source. -/
def errText : PyErr → String
  | .typeError t => t
  | .valueError t => t
  | .httpError t => t
  | .runtimeError t => t
  | .attributeError t => t

mutual

/-- Python `repr` of a value (the rendering used for values inside
containers, and `str` for every non-string value). -/
def pyRepr : PyVal → String
  | .str s => "\x27" ++ s ++ "\x27"
  | .int n => toString n
  | .none => "None"
  | .list elems => "[" ++ pyReprSeq elems ++ "]"
  | .dict entries => "\x7b" ++ pyReprEntries entries ++ "\x7d"

/-- Comma-separated reprs of the elements of a Python list. -/
def pyReprSeq : List PyVal → String
  | [] => ""
  | [v] => pyRepr v
  | v :: rest => pyRepr v ++ ", " ++ pyReprSeq rest

/-- Comma-separated `key: value` reprs of the entries of a Python dict. -/
def pyReprEntries : List (String × PyVal) → String
  | [] => ""
  | [(k, v)] => "\x27" ++ k ++ "\x27: " ++ pyRepr v
  | (k, v) :: rest => "\x27" ++ k ++ "\x27: " ++ pyRepr v ++ ", " ++ pyReprEntries rest

end

/-- Python `str` of a value (what `'{}'.format(v)` and f-strings interpolate). -/
def pyStr : PyVal → String
  | .str s => s
  | v => pyRepr v

/-- Python `str(type(v))`, as interpolated by the not-a-list schema error. -/
def pyType : PyVal → String
  | .str _ => "<class \x27str\x27>"
  | .int _ => "<class \x27int\x27>"
  | .none => "<class \x27NoneType\x27>"
  | .list _ => "<class \x27list\x27>"
  | .dict _ => "<class \x27dict\x27>"

/-- Log levels used by the source (`logging.exception` records at `error`). -/
inductive LogLevel where
  | debug
  | error
  | critical
deriving DecidableEq

/-- One emitted log record: a level and the formatted text. -/
structure LogEntry where
  level : LogLevel
  text : String
deriving DecidableEq

/-- Constant `RETRY_PERIOD` of the source: seconds slept between cycles. -/
def RETRY_PERIOD : Nat := 600

/-- Constant `ENDPOINT` of the source. -/
def ENDPOINT : String := "https://practicum.yandex.ru/api/user_api/homework_statuses/"

/-- Constant `HOMEWORK_VERDICTS` of the source: the closed status table. -/
def HOMEWORK_VERDICTS : List (String × String) :=
  [("approved", "Работа проверена: ревьюеру всё понравилось. Ура!"),
   ("reviewing", "Работа взята на проверку ревьюером."),
   ("rejected", "Работа проверена: у ревьюера есть замечания.")]

/-- Template `MISSING_TOKENS_MESSAGE` applied to its format argument. -/
def MISSING_TOKENS_MESSAGE (arg : String) : String :=
  "Отсутствуют обязательные переменные окружения: " ++ arg

/-- Template `BOT_SENT_MESSAGE_TEMPLATE` applied to its format argument. -/
def BOT_SENT_MESSAGE_TEMPLATE (arg : String) : String :=
  "Бот отправил сообщение: " ++ arg

/-- Template `SEND_MESSAGE_ERROR_TEMPLATE` applied to its format argument. -/
def SEND_MESSAGE_ERROR_TEMPLATE (arg : String) : String :=
  "Сбой при отправке сообщения: " ++ arg

/-- Template `REQUEST_ERROR_MESSAGE` applied to its format argument. -/
def REQUEST_ERROR_MESSAGE (arg : String) : String :=
  "Сбой в работе программы: " ++ arg

/-- Template `API_STATUS_CODE_ERROR` applied to its four format arguments. -/
def API_STATUS_CODE_ERROR (status endpoint headers params : String) : String :=
  "Код ответа API: " ++ status ++ ". Запрос: " ++ endpoint ++
    ", заголовки: " ++ headers ++ ", параметры: " ++ params

/-- Template `API_RESPONSE_ERROR` applied to its two format arguments. -/
def API_RESPONSE_ERROR (code errorMsg : String) : String :=
  "API вернуло ошибку: " ++ code ++ " - " ++ errorMsg

/-- Template `RESPONSE_NOT_DICT_MESSAGE` applied to its format argument. -/
def RESPONSE_NOT_DICT_MESSAGE (arg : String) : String :=
  "Ответ API не является словарем: " ++ arg

/-- Template `RESPONSE_MISSING_KEYS_MESSAGE` applied to its format argument. -/
def RESPONSE_MISSING_KEYS_MESSAGE (arg : String) : String :=
  "Отсутствуют ожидаемые ключи в ответе API: " ++ arg

/-- Template `RESPONSE_HOMEWORKS_NOT_LIST_MESSAGE` applied to its two
format arguments (`type(homeworks)` and `homeworks`). -/
def RESPONSE_HOMEWORKS_NOT_LIST_MESSAGE (tp val : String) : String :=
  "Некорректный формат данных домашних работ (ожидается список, получено " ++
    tp ++ "): " ++ val

/-- Template `MISSING_HOMEWORK_NAME_MESSAGE` applied to its format argument. -/
def MISSING_HOMEWORK_NAME_MESSAGE (arg : String) : String :=
  "Отсутствует название домашней работы: " ++ arg

/-- Template `MISSING_HOMEWORK_STATUS_MESSAGE` applied to its format argument. -/
def MISSING_HOMEWORK_STATUS_MESSAGE (arg : String) : String :=
  "Отсутствует статус домашней работы: " ++ arg

/-- Template `UNEXPECTED_HOMEWORK_STATUS_MESSAGE` applied to its format argument. -/
def UNEXPECTED_HOMEWORK_STATUS_MESSAGE (arg : String) : String :=
  "Неожиданный статус работы: " ++ arg

/-- Constant `NO_NEW_UPDATES_MESSAGE` of the source. -/
def NO_NEW_UPDATES_MESSAGE : String := "Нет новых обновлений"

/-- Python truthiness test `not token` on an environment value (`None`
when the variable is absent, otherwise its string value). -/
def pyFalsy : Option String → Bool
  | Option.none => true
  | Option.some s => s = ""

/-- Python `repr` of an environment value (`None` or a quoted string), as
rendered when the list `missing_tokens` is formatted into the critical log. -/
def reprToken : Option String → String
  | Option.none => "None"
  | Option.some s => "\x27" ++ s ++ "\x27"

/-- Python `str` of the list `missing_tokens`. -/
def reprTokenList (tokens : List (Option String)) : String :=
  "[" ++ String.intercalate ", " (tokens.map reprToken) ++ "]"

/-- Source `check_tokens`: filters the falsy members of
`[PRACTICUM_TOKEN, TELEGRAM_TOKEN, TELEGRAM_CHAT_ID]`; when some are
missing it logs them (the values, via `'{}'.format(missing_tokens)`) at
critical level and returns `False`, otherwise returns `True`.  The result
pairs the returned boolean with the emitted log records. -/
def check_tokens (practicumToken telegramToken chatId : Option String) :
    Bool × List LogEntry :=
  let tokens := [practicumToken, telegramToken, chatId]
  let missing_tokens := tokens.filter fun tk => pyFalsy tk
  if missing_tokens ≠ [] then
    (false, [⟨.critical, MISSING_TOKENS_MESSAGE (reprTokenList missing_tokens)⟩])
  else
    (true, [])

/-- Behaviour of the Telegram transport on one `bot.send_message` call:
`Option.none` models the call returning normally, `Option.some e` models it
raising an exception rendered as `e`.  The `Except` result is what the
bare call (outside any `try`) would do. -/
def send_message_attempt : Option String → Except String Unit
  | Option.none => .ok ()
  | Option.some e => .error e

/-- Source `send_message`: wraps the transport call in `try/except
Exception`, logging the sent text at debug level on success and the error
at error level (`logging.exception`) on failure.  The first component of
the result is the Python return value of the function — always `None`
(there is no `return` statement), modelled as `Option.none : Option Bool`.
Because the except-clause catches every exception, the function is total:
no outcome of the transport escapes to the caller. -/
def send_message (outcome : Option String) (message : String) :
    Option Bool × List LogEntry :=
  match send_message_attempt outcome with
  | .ok _ => (Option.none, [⟨.debug, BOT_SENT_MESSAGE_TEMPLATE message⟩])
  | .error e => (Option.none, [⟨.error, SEND_MESSAGE_ERROR_TEMPLATE e⟩])

/-- Behaviour of the HTTP transport on one `requests.get` call:
`raises e` models `requests.RequestException` rendered as `e`; `response`
models a returned response with its status code and parsed JSON body. -/
inductive TransportOutcome where
  | raises (text : String)
  | response (status : Int) (body : PyVal)
deriving DecidableEq

/-- The rendered `HEADERS` dict of the source,
`str({'Authorization': f'OAuth {PRACTICUM_TOKEN}'})` (an absent token
interpolates as `None`). -/
def HEADERS (practicumToken : Option String) : String :=
  "\x7b\x27Authorization\x27: \x27OAuth " ++
    (match practicumToken with
     | Option.none => "None"
     | Option.some s => s) ++ "\x27\x7d"

/-- The rendered request parameters `str({'from_date': timestamp})`. -/
def REQUEST_PARAMS (timestamp : PyVal) : String :=
  "\x7b\x27from_date\x27: " ++ pyRepr timestamp ++ "\x7d"

/-- Whether the first list is an initial segment of the second. -/
def listStartsWith : List Char → List Char → Bool
  | [], _ => true
  | _ :: _, [] => false
  | a :: rest₁, b :: rest₂ => a = b && listStartsWith rest₁ rest₂

/-- Whether the first list occurs contiguously inside the second
(Python's substring containment on the underlying characters). -/
def listHasSegment : List Char → List Char → Bool
  | needle, [] => needle.isEmpty
  | needle, h :: t => listStartsWith needle (h :: t) || listHasSegment needle t

/-- Python membership test `key in v` (used on the decoded body by
`get_api_answer`): key lookup for a dict, element membership for a list,
substring test for a string, and a `TypeError` for non-iterable values. -/
def pyContainsKey (key : String) : PyVal → Except PyErr Bool
  | .dict entries => .ok ((entries.lookup key).isSome)
  | .list elems => .ok (elems.contains (.str key))
  | .str s => .ok (listHasSegment key.data s.data)
  | .int _ => .error (.typeError "argument of type \x27int\x27 is not iterable")
  | .none => .error (.typeError "argument of type \x27NoneType\x27 is not iterable")

/-- Python `v.get(key)` — present only on dicts (returns the value or
`None`); every other value raises `AttributeError`. -/
def pyGet (v : PyVal) (key : String) : Except PyErr PyVal :=
  match v with
  | .dict entries => .ok ((entries.lookup key).getD .none)
  | .list _ => .error (.attributeError "\x27list\x27 object has no attribute \x27get\x27")
  | .str _ => .error (.attributeError "\x27str\x27 object has no attribute \x27get\x27")
  | .int _ => .error (.attributeError "\x27int\x27 object has no attribute \x27get\x27")
  | .none => .error (.attributeError "\x27NoneType\x27 object has no attribute \x27get\x27")

/-- Python `v.get(key, default)` — like `pyGet` with an explicit default. -/
def pyGetD (v : PyVal) (key : String) (dflt : PyVal) : Except PyErr PyVal :=
  match v with
  | .dict entries => .ok ((entries.lookup key).getD dflt)
  | .list _ => .error (.attributeError "\x27list\x27 object has no attribute \x27get\x27")
  | .str _ => .error (.attributeError "\x27str\x27 object has no attribute \x27get\x27")
  | .int _ => .error (.attributeError "\x27int\x27 object has no attribute \x27get\x27")
  | .none => .error (.attributeError "\x27NoneType\x27 object has no attribute \x27get\x27")

/-- Source `get_api_answer`: issues one GET (the embedding consumes only
call number `0` of the transport, mirroring the single `requests.get` of
the source); wraps a transport exception in
`RuntimeError(REQUEST_ERROR_MESSAGE...)`; raises `HTTPError` with
`API_STATUS_CODE_ERROR` on a non-200 status; on a 200 status raises
`HTTPError` with `API_RESPONSE_ERROR` when the decoded body contains a
`code` or `error` field (the membership tests and `.get` calls follow
Python semantics, including their own exceptions on non-dict bodies), and
otherwise returns the decoded body unmodified. -/
def get_api_answer (practicumToken : Option String) (timestamp : PyVal)
    (transport : Nat → TransportOutcome) : Except PyErr PyVal :=
  match transport 0 with
  | .raises e => .error (.runtimeError (REQUEST_ERROR_MESSAGE e))
  | .response status body =>
    if status ≠ 200 then
      .error (.httpError (API_STATUS_CODE_ERROR (toString status) ENDPOINT
        (HEADERS practicumToken) (REQUEST_PARAMS timestamp)))
    else do
      let hasCode ← pyContainsKey "code" body
      let flagged ← if hasCode then pure true else pyContainsKey "error" body
      if flagged then
        let codeVal ← pyGet body "code"
        let errVal ← pyGet body "error"
        Except.error (.httpError (API_RESPONSE_ERROR (pyStr codeVal) (pyStr errVal)))
      else
        pure body

/-- Source `check_response`: `TypeError` when the body is not a dict,
`ValueError` when the `homeworks` key is absent, `TypeError` when the
`homeworks` value is not a list, and otherwise the `homeworks` list
unchanged. -/
def check_response (response : PyVal) : Except PyErr (List PyVal) :=
  match response with
  | .dict entries =>
    match entries.lookup "homeworks" with
    | Option.none =>
        .error (.valueError (RESPONSE_MISSING_KEYS_MESSAGE (pyStr response)))
    | Option.some homeworks =>
      match homeworks with
      | .list elems => .ok elems
      | other =>
          .error (.typeError
            (RESPONSE_HOMEWORKS_NOT_LIST_MESSAGE (pyType other) (pyStr other)))
  | other => .error (.typeError (RESPONSE_NOT_DICT_MESSAGE (pyStr other)))

/-- Python membership test `status in HOMEWORK_VERDICTS` on the verdict
dict: string statuses are looked up among the keys, other hashable values
(ints, `None`) are simply not members, and unhashable values (lists,
dicts) raise `TypeError`, as CPython does for dict membership. -/
def verdictsContain : PyVal → Except PyErr Bool
  | .str s => .ok ((HOMEWORK_VERDICTS.lookup s).isSome)
  | .int _ => .ok false
  | .none => .ok false
  | .list _ => .error (.typeError "unhashable type: \x27list\x27")
  | .dict _ => .error (.typeError "unhashable type: \x27dict\x27")

/-- Python `HOMEWORK_VERDICTS.get(status)`: the verdict string for a known
string status, `None` otherwise (only evaluated after the membership test
succeeded, so the unhashable case cannot be reached). -/
def verdictsGet : PyVal → PyVal
  | .str s =>
    match HOMEWORK_VERDICTS.lookup s with
    | Option.some v => .str v
    | Option.none => .none
  | _ => .none

/-- Source `parse_status`: reads `homework.get('homework_name')` and
`homework.get('status')` (raising `AttributeError` on a non-dict record),
then checks key presence of `homework_name` and `status` (raising
`TypeError` with the respective missing-field message), then tests
`status not in HOMEWORK_VERDICTS` (raising the unexpected-status
`TypeError` for hashable non-members and the unhashability `TypeError`
for list/dict statuses), and finally composes
`f'Изменился статус проверки работы "{name}". {verdict}'`. -/
def parse_status (homework : PyVal) : Except PyErr String := do
  let name ← pyGet homework "homework_name"
  let status ← pyGet homework "status"
  let hasName ← pyContainsKey "homework_name" homework
  if hasName = false then
    Except.error (.typeError (MISSING_HOMEWORK_NAME_MESSAGE (pyStr homework)))
  else do
    let hasStatus ← pyContainsKey "status" homework
    if hasStatus = false then
      Except.error (.typeError (MISSING_HOMEWORK_STATUS_MESSAGE (pyStr homework)))
    else do
      let member ← verdictsContain status
      if member = false then
        Except.error (.typeError (UNEXPECTED_HOMEWORK_STATUS_MESSAGE (pyStr status)))
      else
        pure ("Изменился статус проверки работы \"" ++ pyStr name ++ "\". " ++
          pyStr (verdictsGet status))

/-- The external behaviour offered to one iteration of the poll loop: the
outcome of the (single) HTTP request and the outcome of the (at most one)
Telegram send of that iteration. -/
structure CycleEnv where
  transport : TransportOutcome
  send : Option String
deriving DecidableEq

/-- Observable result of one iteration of the `while True` loop: the value
of `timestamp` after the iteration, the log records emitted, and the
messages handed to `send_message` (the outbound notification attempts). -/
structure CycleOut where
  timestamp : PyVal
  logs : List LogEntry
  sends : List String
deriving DecidableEq

/-- The `try`-block of one loop iteration of `main`: fetch, validate, and
— when the homework list is non-empty — translate the first record, hand
the message to `send_message`, and re-read the cursor from
`response.get('current_date', timestamp)`.  An empty list only logs the
no-new-updates debug record.  Any exception of the stages escapes as the
`Except.error` of the result. -/
def tryBody (practicumToken : Option String) (env : CycleEnv)
    (timestamp : PyVal) : Except PyErr CycleOut := do
  let response ← get_api_answer practicumToken timestamp (fun _ => env.transport)
  let homeworks ← check_response response
  match homeworks with
  | first :: _ =>
    let message ← parse_status first
    let sent := send_message env.send message
    let newTimestamp ← pyGetD response "current_date" timestamp
    pure ⟨newTimestamp, sent.2, [message]⟩
  | [] =>
    pure ⟨timestamp, [⟨.debug, NO_NEW_UPDATES_MESSAGE⟩], []⟩

/-- One full iteration of the loop body of `main`: the `try`-block, with
the `except Exception` handler formatting the error into
`REQUEST_ERROR_MESSAGE`, logging it at error level and handing it to
`send_message`; `timestamp` is left unchanged by the handler. -/
def cycleStep (practicumToken : Option String) (env : CycleEnv)
    (timestamp : PyVal) : CycleOut :=
  match tryBody practicumToken env timestamp with
  | .ok out => out
  | .error e =>
    let message := REQUEST_ERROR_MESSAGE (errText e)
    let sent := send_message env.send message
    ⟨timestamp, ⟨.error, message⟩ :: sent.2, [message]⟩

/-- Observable result of a finite number of loop iterations. -/
structure RunOut where
  timestamp : PyVal
  logs : List LogEntry
  sends : List String
deriving DecidableEq

/-- A finite unfolding of the `while True` loop of `main`: one `cycleStep`
per provided environment, threading `timestamp` between the iterations
(the sleep between cycles carries no observable state). -/
def run (practicumToken : Option String) :
    List CycleEnv → PyVal → RunOut
  | [], ts => ⟨ts, [], []⟩
  | env :: rest, ts =>
    let c := cycleStep practicumToken env ts
    let r := run practicumToken rest c.timestamp
    ⟨r.timestamp, c.logs ++ r.logs, c.sends ++ r.sends⟩

/-- Source `main`: runs `check_tokens` on the three environment values and
returns (halting before any network activity, with only the critical log
emitted) when it fails; otherwise initialises `timestamp` to the start
time and enters the poll loop.  The result pairs the startup log records
with `Option.some` of the loop's observable behaviour, or `Option.none`
when the credential gate halted the process. -/
def main (practicumToken telegramToken chatId : Option String)
    (envs : List CycleEnv) (startTime : Int) :
    List LogEntry × Option RunOut :=
  match check_tokens practicumToken telegramToken chatId with
  | (false, logs) => (logs, Option.none)
  | (true, logs) => (logs, Option.some (run practicumToken envs (.int startTime)))

/-! Helper lemmas shared by the claim theorems. -/

/-- Head character of a string, used to separate messages built from
distinct templates. -/
def strHead (s : String) : Option Char := s.data.head?

/-- Binding a successful `Except` computation applies the continuation. -/
theorem except_bind_ok {ε α β : Type} (a : α) (f : α → Except ε β) :
    (Except.ok a : Except ε α) >>= f = f a := rfl

/-- Binding a failed `Except` computation propagates the error. -/
theorem except_bind_error {ε α β : Type} (e : ε) (f : α → Except ε β) :
    (Except.error e : Except ε α) >>= f = Except.error e := rfl

/-- `pure` of the `Except` monad is `Except.ok`. -/
theorem except_pure_eq_ok {ε α : Type} (a : α) :
    (pure a : Except ε α) = Except.ok a := rfl

/-- The unexpected-status template never collides with the missing-name
template, whatever the format arguments. -/
theorem unexpected_ne_missing_name (a b : String) :
    UNEXPECTED_HOMEWORK_STATUS_MESSAGE a ≠ MISSING_HOMEWORK_NAME_MESSAGE b := by
  intro h
  have h2 : (Option.some 'Н' : Option Char) = Option.some 'О' := congrArg strHead h
  exact absurd (Option.some.inj h2) (by decide)

/-- The unexpected-status template never collides with the missing-status
template, whatever the format arguments. -/
theorem unexpected_ne_missing_status (a b : String) :
    UNEXPECTED_HOMEWORK_STATUS_MESSAGE a ≠ MISSING_HOMEWORK_STATUS_MESSAGE b := by
  intro h
  have h2 : (Option.some 'Н' : Option Char) = Option.some 'О' := congrArg strHead h
  exact absurd (Option.some.inj h2) (by decide)

/-- The unhashable-list message never collides with the missing-name
template. -/
theorem unhashable_list_ne_missing_name (b : String) :
    "unhashable type: \x27list\x27" ≠ MISSING_HOMEWORK_NAME_MESSAGE b := by
  intro h
  have h2 : (Option.some 'u' : Option Char) = Option.some 'О' := congrArg strHead h
  exact absurd (Option.some.inj h2) (by decide)

/-- The unhashable-list message never collides with the missing-status
template. -/
theorem unhashable_list_ne_missing_status (b : String) :
    "unhashable type: \x27list\x27" ≠ MISSING_HOMEWORK_STATUS_MESSAGE b := by
  intro h
  have h2 : (Option.some 'u' : Option Char) = Option.some 'О' := congrArg strHead h
  exact absurd (Option.some.inj h2) (by decide)

/-- The unhashable-dict message never collides with the missing-name
template. -/
theorem unhashable_dict_ne_missing_name (b : String) :
    "unhashable type: \x27dict\x27" ≠ MISSING_HOMEWORK_NAME_MESSAGE b := by
  intro h
  have h2 : (Option.some 'u' : Option Char) = Option.some 'О' := congrArg strHead h
  exact absurd (Option.some.inj h2) (by decide)

/-- The unhashable-dict message never collides with the missing-status
template. -/
theorem unhashable_dict_ne_missing_status (b : String) :
    "unhashable type: \x27dict\x27" ≠ MISSING_HOMEWORK_STATUS_MESSAGE b := by
  intro h
  have h2 : (Option.some 'u' : Option Char) = Option.some 'О' := congrArg strHead h
  exact absurd (Option.some.inj h2) (by decide)

/-- The not-a-dict schema template never collides with the not-a-list
schema template, whatever the format arguments. -/
theorem not_dict_ne_not_list (a tp val : String) :
    RESPONSE_NOT_DICT_MESSAGE a ≠ RESPONSE_HOMEWORKS_NOT_LIST_MESSAGE tp val := by
  intro h
  have h2 : (Option.some 'О' : Option Char) = Option.some 'Н' := congrArg strHead h
  exact absurd (Option.some.inj h2) (by decide)

/-- Two `typeError` results with different messages differ. -/
theorem typeError_result_ne {α : Type} (m₁ m₂ : String) (h : m₁ ≠ m₂) :
    (Except.error (PyErr.typeError m₁) : Except PyErr α) ≠
      Except.error (PyErr.typeError m₂) := by
  simp [h]

/-- `parse_status` on a record with both keys and a recognised string
status composes the display message. -/
theorem parse_status_eq_ok (entries : List (String × PyVal)) (name : PyVal)
    (s verdict : String)
    (hn : entries.lookup "homework_name" = Option.some name)
    (hs : entries.lookup "status" = Option.some (PyVal.str s))
    (hv : HOMEWORK_VERDICTS.lookup s = Option.some verdict) :
    parse_status (PyVal.dict entries) =
      .ok ("Изменился статус проверки работы \"" ++ pyStr name ++ "\". " ++ verdict) := by
  simp [parse_status, pyGet, pyContainsKey, verdictsContain, verdictsGet,
    hn, hs, hv, except_bind_ok, pyStr]

/-- `parse_status` on a record whose string status is not a verdict key
raises the unexpected-status error. -/
theorem parse_status_eq_unknown_str (entries : List (String × PyVal))
    (name : PyVal) (s : String)
    (hn : entries.lookup "homework_name" = Option.some name)
    (hs : entries.lookup "status" = Option.some (PyVal.str s))
    (hv : HOMEWORK_VERDICTS.lookup s = Option.none) :
    parse_status (PyVal.dict entries) =
      .error (.typeError (UNEXPECTED_HOMEWORK_STATUS_MESSAGE s)) := by
  simp [parse_status, pyGet, pyContainsKey, verdictsContain,
    hn, hs, hv, except_bind_ok, pyStr]

/-- `parse_status` on a record whose status is an integer raises the
unexpected-status error. -/
theorem parse_status_eq_unknown_int (entries : List (String × PyVal))
    (name : PyVal) (n : Int)
    (hn : entries.lookup "homework_name" = Option.some name)
    (hs : entries.lookup "status" = Option.some (PyVal.int n)) :
    parse_status (PyVal.dict entries) =
      .error (.typeError (UNEXPECTED_HOMEWORK_STATUS_MESSAGE (toString n))) := by
  simp [parse_status, pyGet, pyContainsKey, verdictsContain,
    hn, hs, except_bind_ok, pyStr, pyRepr]

/-- `parse_status` on a record whose status is `None` raises the
unexpected-status error. -/
theorem parse_status_eq_unknown_none (entries : List (String × PyVal))
    (name : PyVal)
    (hn : entries.lookup "homework_name" = Option.some name)
    (hs : entries.lookup "status" = Option.some PyVal.none) :
    parse_status (PyVal.dict entries) =
      .error (.typeError (UNEXPECTED_HOMEWORK_STATUS_MESSAGE "None")) := by
  simp [parse_status, pyGet, pyContainsKey, verdictsContain,
    hn, hs, except_bind_ok, pyStr, pyRepr]

/-- `parse_status` on a record whose status is a list raises the
unhashability error of the membership test. -/
theorem parse_status_eq_unhashable_list (entries : List (String × PyVal))
    (name : PyVal) (l : List PyVal)
    (hn : entries.lookup "homework_name" = Option.some name)
    (hs : entries.lookup "status" = Option.some (PyVal.list l)) :
    parse_status (PyVal.dict entries) =
      .error (.typeError "unhashable type: \x27list\x27") := by
  simp [parse_status, pyGet, pyContainsKey, verdictsContain,
    hn, hs, except_bind_ok, except_bind_error]

/-- `parse_status` on a record whose status is a dict raises the
unhashability error of the membership test. -/
theorem parse_status_eq_unhashable_dict (entries : List (String × PyVal))
    (name : PyVal) (d : List (String × PyVal))
    (hn : entries.lookup "homework_name" = Option.some name)
    (hs : entries.lookup "status" = Option.some (PyVal.dict d)) :
    parse_status (PyVal.dict entries) =
      .error (.typeError "unhashable type: \x27dict\x27") := by
  simp [parse_status, pyGet, pyContainsKey, verdictsContain,
    hn, hs, except_bind_ok, except_bind_error]

/-! Concrete inputs used by witnesses and counterexamples. -/

/-- A well-formed submission record with an approved status. -/
def hwApproved : PyVal :=
  .dict [("homework_name", .str "hw1"), ("status", .str "approved")]

/-- A cycle in which the HTTP transport raises a network error and the
Telegram transport would deliver. -/
def envNetFail : CycleEnv := ⟨.raises "Сетевая ошибка", Option.none⟩

/-- A cycle with a well-formed non-empty response carrying
`current_date = 500`, in which the Telegram delivery fails. -/
def envDeliveryFail : CycleEnv :=
  ⟨.response 200 (.dict [("homeworks", .list [hwApproved]),
      ("current_date", .int 500)]),
   Option.some "Telegram unavailable"⟩

/-- A cycle with a well-formed response whose homework list is empty and
which still carries a `current_date` field. -/
def envEmptyList : CycleEnv :=
  ⟨.response 200 (.dict [("homeworks", .list []), ("current_date", .int 999)]),
   Option.none⟩

/-! Claim theorems. -/

/-- Claim C1 (amended): the loop retains no last-error state, so every
cycle in which a stage raises hands exactly one notification — the
formatted error text of that cycle — to the notifier, whether or not the
previous cycle raised an error with the identical formatted text; across
two consecutive erroring cycles both formatted texts are sent (two
notifications, never one), and the cursor is unchanged. -/
theorem error_cycles_send_every_time (practicumToken : Option String)
    (env₁ env₂ : CycleEnv) (ts : PyVal) (e₁ e₂ : PyErr)
    (h₁ : tryBody practicumToken env₁ ts = .error e₁)
    (h₂ : tryBody practicumToken env₂ ts = .error e₂) :
    (run practicumToken [env₁, env₂] ts).sends =
      [REQUEST_ERROR_MESSAGE (errText e₁), REQUEST_ERROR_MESSAGE (errText e₂)] ∧
    (run practicumToken [env₁, env₂] ts).timestamp = ts := by
  simp [run, cycleStep, h₁, h₂]

/-- Witness for C1's amended theorem at two identical network-failure
cycles: both cycles hand the (identical) formatted error to the notifier. -/
theorem error_cycles_send_every_time_witness :
    (run (Option.some "token") [envNetFail, envNetFail] (PyVal.int 0)).sends =
      [REQUEST_ERROR_MESSAGE (errText (.runtimeError (REQUEST_ERROR_MESSAGE "Сетевая ошибка"))),
       REQUEST_ERROR_MESSAGE (errText (.runtimeError (REQUEST_ERROR_MESSAGE "Сетевая ошибка")))] ∧
    (run (Option.some "token") [envNetFail, envNetFail] (PyVal.int 0)).timestamp =
      PyVal.int 0 :=
  error_cycles_send_every_time (Option.some "token") envNetFail envNetFail
    (PyVal.int 0) (.runtimeError (REQUEST_ERROR_MESSAGE "Сетевая ошибка"))
    (.runtimeError (REQUEST_ERROR_MESSAGE "Сетевая ошибка")) rfl rfl

/-- Counterexample to claim C1 as stated: two consecutive cycles raising
the identical formatted error produce two outbound notification attempts,
not exactly one — the code holds no Last Error Message and suppresses
nothing. -/
theorem identical_errors_send_twice :
    (run (Option.some "token") [envNetFail, envNetFail] (PyVal.int 0)).sends.length = 2 ∧
    (run (Option.some "token") [envNetFail, envNetFail] (PyVal.int 0)).sends.length ≠ 1 := by
  exact ⟨rfl, by decide⟩

/-- Claim C2 (amended): for a cycle whose validated submission list is
non-empty and whose first record translates successfully, the cursor is
advanced to the response's `current_date` value regardless of the delivery
outcome of the notification (the send behaviour `env.send` is arbitrary
here); when the `current_date` field is absent the cursor keeps its prior
value; the cycle hands exactly the composed message to the notifier. -/
theorem cursor_advances_with_current_date (practicumToken : Option String)
    (env : CycleEnv) (ts : PyVal) (entries : List (String × PyVal))
    (first : PyVal) (rest : List PyVal) (message : String)
    (hresp : get_api_answer practicumToken ts (fun _ => env.transport) =
      .ok (PyVal.dict entries))
    (hchk : check_response (PyVal.dict entries) = .ok (first :: rest))
    (hmsg : parse_status first = .ok message) :
    (cycleStep practicumToken env ts).timestamp =
      (entries.lookup "current_date").getD ts ∧
    (cycleStep practicumToken env ts).sends = [message] := by
  simp [cycleStep, tryBody, hresp, hchk, hmsg, pyGetD, except_bind_ok]

/-- Witness for C2's amended theorem at a concrete cycle whose Telegram
delivery fails: the cursor still advances to `current_date = 500`. -/
theorem cursor_advances_with_current_date_witness :
    (cycleStep (Option.some "token") envDeliveryFail (PyVal.int 100)).timestamp =
      (([("homeworks", PyVal.list [hwApproved]), ("current_date", PyVal.int 500)].lookup
        "current_date").getD (PyVal.int 100)) ∧
    (cycleStep (Option.some "token") envDeliveryFail (PyVal.int 100)).sends =
      ["Изменился статус проверки работы \"hw1\". Работа проверена: ревьюеру всё понравилось. Ура!"] :=
  cursor_advances_with_current_date (Option.some "token") envDeliveryFail
    (PyVal.int 100)
    [("homeworks", PyVal.list [hwApproved]), ("current_date", PyVal.int 500)]
    hwApproved []
    "Изменился статус проверки работы \"hw1\". Работа проверена: ревьюеру всё понравилось. Ура!"
    rfl rfl rfl

/-- Counterexample to claim C2 as stated: in a cycle with a non-empty
validated list whose delivery fails (the Telegram transport raises), the
cursor does not keep its prior value `100` — it is advanced to the
response's `current_date` value `500`, because `send_message` swallows the
failure and `main` advances unconditionally afterwards. -/
theorem cursor_advances_despite_failed_delivery :
    (cycleStep (Option.some "token") envDeliveryFail (PyVal.int 100)).timestamp =
      PyVal.int 500 ∧
    PyVal.int 500 ≠ PyVal.int 100 := by
  exact ⟨rfl, by decide⟩

/-- Claim C3: with `PRACTICUM_TOKEN` absent (and likewise with all three
credentials absent) the program halts before the loop — no cycle runs, so
no network activity happens — but the critical log renders the list of
missing *values* (`[None]`, `[None, None, None]`): it contains no variable
names, contradicting the stated contract that the missing variable names
are listed. -/
theorem missing_tokens_log_lists_values :
    main Option.none (Option.some "bot-token") (Option.some "chat-id") [] 0 =
      ([⟨.critical, "Отсутствуют обязательные переменные окружения: [None]"⟩],
       Option.none) ∧
    main Option.none Option.none Option.none [] 0 =
      ([⟨.critical, "Отсутствуют обязательные переменные окружения: [None, None, None]"⟩],
       Option.none) := by
  exact ⟨rfl, rfl⟩

/-- Claim C4: an exception raised by the fetch/validate/translate stages
of a cycle is caught at the loop level — the iteration still yields a
normal `CycleOut`, the cursor is unchanged, and the remaining iterations
run exactly as they would from the same cursor (the next fetch reuses the
failed cycle's cursor value). -/
theorem loop_survives_stage_errors (practicumToken : Option String)
    (env : CycleEnv) (rest : List CycleEnv) (ts : PyVal) (e : PyErr)
    (herr : tryBody practicumToken env ts = .error e) :
    (cycleStep practicumToken env ts).timestamp = ts ∧
    run practicumToken (env :: rest) ts =
      ⟨(run practicumToken rest ts).timestamp,
       (cycleStep practicumToken env ts).logs ++ (run practicumToken rest ts).logs,
       (cycleStep practicumToken env ts).sends ++ (run practicumToken rest ts).sends⟩ := by
  constructor
  · simp [cycleStep, herr]
  · simp [run, cycleStep, herr]

/-- Witness for C4 at a concrete network-failure cycle followed by an
empty continuation. -/
theorem loop_survives_stage_errors_witness :
    (cycleStep (Option.some "token") envNetFail (PyVal.int 0)).timestamp = PyVal.int 0 ∧
    run (Option.some "token") [envNetFail] (PyVal.int 0) =
      ⟨(run (Option.some "token") ([] : List CycleEnv) (PyVal.int 0)).timestamp,
       (cycleStep (Option.some "token") envNetFail (PyVal.int 0)).logs ++
         (run (Option.some "token") ([] : List CycleEnv) (PyVal.int 0)).logs,
       (cycleStep (Option.some "token") envNetFail (PyVal.int 0)).sends ++
         (run (Option.some "token") ([] : List CycleEnv) (PyVal.int 0)).sends⟩ :=
  loop_survives_stage_errors (Option.some "token") envNetFail [] (PyVal.int 0)
    (.runtimeError (REQUEST_ERROR_MESSAGE "Сетевая ошибка")) rfl

/-- Claim C5 (amended): for every record with both required keys, a status
value that is a key of the closed verdict table yields the composed
message — the record's exact name in double quotes followed by the fixed
verdict text keyed by that status; a hashable status value outside the
table (a string that is not a key, an integer, `None`) fails with the
unknown-status error; an unhashable status value (a list or a dict) fails
with the unhashability `TypeError` of the membership test instead — in no
case is an unrecognised value passed through. -/
theorem parse_status_closed_enumeration (entries : List (String × PyVal)) :
    (∀ name s verdict,
        entries.lookup "homework_name" = Option.some name →
        entries.lookup "status" = Option.some (PyVal.str s) →
        HOMEWORK_VERDICTS.lookup s = Option.some verdict →
        parse_status (PyVal.dict entries) =
          .ok ("Изменился статус проверки работы \"" ++ pyStr name ++ "\". " ++ verdict)) ∧
    (∀ name s,
        entries.lookup "homework_name" = Option.some name →
        entries.lookup "status" = Option.some (PyVal.str s) →
        HOMEWORK_VERDICTS.lookup s = Option.none →
        parse_status (PyVal.dict entries) =
          .error (.typeError (UNEXPECTED_HOMEWORK_STATUS_MESSAGE s))) ∧
    (∀ name n,
        entries.lookup "homework_name" = Option.some name →
        entries.lookup "status" = Option.some (PyVal.int n) →
        parse_status (PyVal.dict entries) =
          .error (.typeError (UNEXPECTED_HOMEWORK_STATUS_MESSAGE (toString n)))) ∧
    (∀ name,
        entries.lookup "homework_name" = Option.some name →
        entries.lookup "status" = Option.some PyVal.none →
        parse_status (PyVal.dict entries) =
          .error (.typeError (UNEXPECTED_HOMEWORK_STATUS_MESSAGE "None"))) ∧
    (∀ name l,
        entries.lookup "homework_name" = Option.some name →
        entries.lookup "status" = Option.some (PyVal.list l) →
        parse_status (PyVal.dict entries) =
          .error (.typeError "unhashable type: \x27list\x27")) ∧
    (∀ name d,
        entries.lookup "homework_name" = Option.some name →
        entries.lookup "status" = Option.some (PyVal.dict d) →
        parse_status (PyVal.dict entries) =
          .error (.typeError "unhashable type: \x27dict\x27")) := by
  refine ⟨?_, ?_, ?_, ?_, ?_, ?_⟩
  · exact fun name s verdict hn hs hv => parse_status_eq_ok entries name s verdict hn hs hv
  · exact fun name s hn hs hv => parse_status_eq_unknown_str entries name s hn hs hv
  · exact fun name n hn hs => parse_status_eq_unknown_int entries name n hn hs
  · exact fun name hn hs => parse_status_eq_unknown_none entries name hn hs
  · exact fun name l hn hs => parse_status_eq_unhashable_list entries name l hn hs
  · exact fun name d hn hs => parse_status_eq_unhashable_dict entries name d hn hs

/-- Witness for C5's amended theorem at a rejected submission. -/
theorem parse_status_closed_enumeration_witness :
    parse_status (PyVal.dict [("homework_name", PyVal.str "hw1"),
        ("status", PyVal.str "rejected")]) =
      .ok "Изменился статус проверки работы \"hw1\". Работа проверена: у ревьюера есть замечания." :=
  (parse_status_closed_enumeration
      [("homework_name", PyVal.str "hw1"), ("status", PyVal.str "rejected")]).1
    (PyVal.str "hw1") "rejected" "Работа проверена: у ревьюера есть замечания."
    rfl rfl rfl

/-- Counterexample to claim C5 as stated: a record whose status value is
the (unhashable) empty list is outside the enumeration, yet the failure
is the unhashability `TypeError` of the membership test, not the
unknown-status error. -/
theorem parse_status_unhashable_status_cex :
    parse_status (PyVal.dict [("homework_name", PyVal.str "hw"),
        ("status", PyVal.list [])]) =
      .error (.typeError "unhashable type: \x27list\x27") ∧
    (Except.error (PyErr.typeError "unhashable type: \x27list\x27") :
        Except PyErr String) ≠
      .error (.typeError (UNEXPECTED_HOMEWORK_STATUS_MESSAGE (pyStr (PyVal.list [])))) := by
  refine ⟨rfl, fun h => ?_⟩
  exact absurd (PyErr.typeError.inj (Except.error.inj h)) (by decide)

/-- Claim C6: `check_response` fails exactly when the body is not a dict
(`TypeError` from the not-a-dict template), lacks the `homeworks` key
(`ValueError` from the missing-keys template), or has a non-list
`homeworks` value (`TypeError` from the not-a-list template) — three
pairwise-distinguishable errors; otherwise it returns the `homeworks`
list unchanged, and an empty list is a success, not an error. -/
theorem check_response_schema (r : PyVal) :
    (∀ entries l, r = PyVal.dict entries →
        entries.lookup "homeworks" = Option.some (PyVal.list l) →
        check_response r = .ok l) ∧
    ((∀ entries, r ≠ PyVal.dict entries) →
        check_response r = .error (.typeError (RESPONSE_NOT_DICT_MESSAGE (pyStr r)))) ∧
    (∀ entries, r = PyVal.dict entries →
        entries.lookup "homeworks" = Option.none →
        check_response r = .error (.valueError (RESPONSE_MISSING_KEYS_MESSAGE (pyStr r)))) ∧
    (∀ entries v, r = PyVal.dict entries →
        entries.lookup "homeworks" = Option.some v → (∀ l, v ≠ PyVal.list l) →
        check_response r =
          .error (.typeError (RESPONSE_HOMEWORKS_NOT_LIST_MESSAGE (pyType v) (pyStr v)))) ∧
    ((∃ l, check_response r = .ok l) ↔
        ∃ entries l, r = PyVal.dict entries ∧
          entries.lookup "homeworks" = Option.some (PyVal.list l)) ∧
    (∀ entries, r = PyVal.dict entries →
        entries.lookup "homeworks" = Option.some (PyVal.list []) →
        check_response r = .ok []) ∧
    (∀ a tp val, RESPONSE_NOT_DICT_MESSAGE a ≠ RESPONSE_HOMEWORKS_NOT_LIST_MESSAGE tp val) ∧
    (∀ a b, (PyErr.valueError a : PyErr) ≠ PyErr.typeError b) := by
  refine ⟨?_, ?_, ?_, ?_, ?_, ?_, ?_, ?_⟩
  · rintro entries l rfl hl
    simp [check_response, hl]
  · intro h
    cases r with
    | dict entries => exact absurd rfl (h entries)
    | str s => simp [check_response]
    | int n => simp [check_response]
    | none => simp [check_response]
    | list l => simp [check_response]
  · rintro entries rfl hl
    simp [check_response, hl]
  · rintro entries v rfl hl hv
    cases v with
    | list l => exact absurd rfl (hv l)
    | str s => simp [check_response, hl]
    | int n => simp [check_response, hl]
    | none => simp [check_response, hl]
    | dict d => simp [check_response, hl]
  · constructor
    · rintro ⟨l, hl⟩
      cases r with
      | dict entries =>
        cases hk : entries.lookup "homeworks" with
        | some v =>
          cases v with
          | list l₂ =>
            refine ⟨entries, l₂, rfl, hk⟩
          | str s => simp [check_response, hk] at hl
          | int n => simp [check_response, hk] at hl
          | none => simp [check_response, hk] at hl
          | dict d => simp [check_response, hk] at hl
        | none => simp [check_response, hk] at hl
      | str s => simp [check_response] at hl
      | int n => simp [check_response] at hl
      | none => simp [check_response] at hl
      | list l₂ => simp [check_response] at hl
    · rintro ⟨entries, l, rfl, hl⟩
      exact ⟨l, by simp [check_response, hl]⟩
  · rintro entries rfl hl
    simp [check_response, hl]
  · exact not_dict_ne_not_list
  · intro a b h
    exact PyErr.noConfusion h

/-- Witness for C6 at a well-formed response with an empty homework list. -/
theorem check_response_schema_witness :
    check_response (PyVal.dict [("homeworks", PyVal.list [])]) = .ok [] :=
  (check_response_schema (PyVal.dict [("homeworks", PyVal.list [])])).1
    [("homeworks", PyVal.list [])] [] rfl rfl

/-- Claim C7 (amended): `get_api_answer` wraps a transport exception in a
`RuntimeError`; fails on a non-200 HTTP status with an `HTTPError`
carrying the status code and the request parameters; for a 200-status
mapping body, fails with the API-error `HTTPError` carrying the body's
`code`/`error` values when either field is present and otherwise returns
the body unmodified; a 200-status non-iterable body (e.g. an integer)
raises a `TypeError` from the field-membership test instead of being
returned; and the result depends only on request number `0` — no retries
are performed. -/
theorem get_api_answer_error_channels (practicumToken : Option String)
    (timestamp : PyVal) (transport : Nat → TransportOutcome) :
    (∀ e, transport 0 = .raises e →
        get_api_answer practicumToken timestamp transport =
          .error (.runtimeError (REQUEST_ERROR_MESSAGE e))) ∧
    (∀ status body, transport 0 = .response status body → status ≠ 200 →
        get_api_answer practicumToken timestamp transport =
          .error (.httpError (API_STATUS_CODE_ERROR (toString status) ENDPOINT
            (HEADERS practicumToken) (REQUEST_PARAMS timestamp)))) ∧
    (∀ entries, transport 0 = .response 200 (PyVal.dict entries) →
        ((entries.lookup "code").isSome ∨ (entries.lookup "error").isSome) →
        get_api_answer practicumToken timestamp transport =
          .error (.httpError (API_RESPONSE_ERROR
            (pyStr ((entries.lookup "code").getD PyVal.none))
            (pyStr ((entries.lookup "error").getD PyVal.none))))) ∧
    (∀ entries, transport 0 = .response 200 (PyVal.dict entries) →
        entries.lookup "code" = Option.none →
        entries.lookup "error" = Option.none →
        get_api_answer practicumToken timestamp transport = .ok (PyVal.dict entries)) ∧
    (∀ n : Int, transport 0 = .response 200 (PyVal.int n) →
        get_api_answer practicumToken timestamp transport =
          .error (.typeError "argument of type \x27int\x27 is not iterable")) ∧
    (∀ transport₂ : Nat → TransportOutcome, transport₂ 0 = transport 0 →
        get_api_answer practicumToken timestamp transport₂ =
          get_api_answer practicumToken timestamp transport) := by
  refine ⟨?_, ?_, ?_, ?_, ?_, ?_⟩
  · intro e h
    simp [get_api_answer, h]
  · intro status body h hs
    simp [get_api_answer, h, hs]
  · intro entries h hor
    cases hc : entries.lookup "code" with
    | some c =>
      simp [get_api_answer, h, pyContainsKey, pyGet, hc, except_bind_ok]
    | none =>
      have herr : (entries.lookup "error").isSome = true := by
        rcases hor with hcode | herror
        · rw [hc] at hcode
          simp at hcode
        · exact herror
      cases he : entries.lookup "error" with
      | some v =>
        simp [get_api_answer, h, pyContainsKey, pyGet, hc, he, except_bind_ok]
      | none =>
        rw [he] at herr
        simp at herr
  · intro entries h hc he
    simp [get_api_answer, h, pyContainsKey, pyGet, hc, he, except_bind_ok,
      except_pure_eq_ok]
  · intro n h
    simp [get_api_answer, h, pyContainsKey, except_bind_error]
  · intro transport₂ h₂
    simp [get_api_answer, h₂]

/-- Witness for C7's amended theorem at a 404 response. -/
theorem get_api_answer_error_channels_witness :
    get_api_answer (Option.some "token") (PyVal.int 0)
        (fun _ => .response 404 (PyVal.dict [])) =
      .error (.httpError (API_STATUS_CODE_ERROR (toString (404 : Int)) ENDPOINT
        (HEADERS (Option.some "token")) (REQUEST_PARAMS (PyVal.int 0)))) :=
  (get_api_answer_error_channels (Option.some "token") (PyVal.int 0)
      (fun _ => .response 404 (PyVal.dict []))).2.1 404 (PyVal.dict []) rfl
    (by decide)

/-- Counterexample to claim C7 as stated: a 200-status decoded body `5`
contains neither a `code` nor an `error` field, yet it is not returned
unmodified — the membership test `'code' in 5` raises a `TypeError`. -/
theorem get_api_answer_nondict_body_cex :
    get_api_answer (Option.some "token") (PyVal.int 0)
        (fun _ => .response 200 (PyVal.int 5)) =
      .error (.typeError "argument of type \x27int\x27 is not iterable") ∧
    (Except.error (PyErr.typeError "argument of type \x27int\x27 is not iterable") :
        Except PyErr PyVal) ≠ .ok (PyVal.int 5) := by
  exact ⟨rfl, fun h => Except.noConfusion h⟩

/-- Claim C8: a cycle whose response validates to an empty homework list
leaves the cursor unchanged, sends no notification, and only logs the
no-new-updates debug record — its whole observable output is a constant
that never consults the response's `current_date` field. -/
theorem empty_homeworks_cycle_frame (practicumToken : Option String)
    (env : CycleEnv) (ts : PyVal) (response : PyVal)
    (hresp : get_api_answer practicumToken ts (fun _ => env.transport) = .ok response)
    (hchk : check_response response = .ok []) :
    cycleStep practicumToken env ts =
      ⟨ts, [⟨.debug, NO_NEW_UPDATES_MESSAGE⟩], []⟩ := by
  simp [cycleStep, tryBody, hresp, hchk, except_bind_ok, except_pure_eq_ok]

/-- Witness for C8 at a response whose homework list is empty but which
carries `current_date = 999`: the cursor stays at `100`. -/
theorem empty_homeworks_cycle_frame_witness :
    cycleStep (Option.some "token") envEmptyList (PyVal.int 100) =
      ⟨PyVal.int 100, [⟨.debug, NO_NEW_UPDATES_MESSAGE⟩], []⟩ :=
  empty_homeworks_cycle_frame (Option.some "token") envEmptyList (PyVal.int 100)
    (PyVal.dict [("homeworks", PyVal.list []), ("current_date", PyVal.int 999)])
    rfl rfl

/-- Claim C9 (amended): `send_message` never propagates an exception of
the messaging transport — every outcome yields a normal return whose value
is Python `None`; a failed attempt is logged at error level with the
send-failure template and a successful attempt is logged at debug level
with the sent text; no `delivered` boolean is reported to the caller. -/
theorem send_message_never_raises (outcome : Option String) (message : String) :
    (send_message outcome message).1 = Option.none ∧
    (send_message_attempt outcome = .ok () →
      send_message outcome message =
        (Option.none, [⟨.debug, BOT_SENT_MESSAGE_TEMPLATE message⟩])) ∧
    (∀ e, send_message_attempt outcome = .error e →
      send_message outcome message =
        (Option.none, [⟨.error, SEND_MESSAGE_ERROR_TEMPLATE e⟩])) := by
  cases outcome <;> simp [send_message, send_message_attempt]

/-- Witness for C9's amended theorem at a failing transport. -/
theorem send_message_never_raises_witness :
    send_message (Option.some "boom") "msg" =
      (Option.none, [⟨.error, SEND_MESSAGE_ERROR_TEMPLATE "boom"⟩]) :=
  (send_message_never_raises (Option.some "boom") "msg").2.2 "boom" rfl

/-- Counterexample to claim C9 as stated: on a successful delivery the
function returns Python `None`, not `delivered = true` — no delivery flag
reaches the loop. -/
theorem send_message_no_delivered_flag_cex :
    (send_message Option.none "msg").1 = Option.none ∧
    (send_message Option.none "msg").1 ≠ Option.some true := by
  exact ⟨rfl, by decide⟩

/-- Claim C10: when both required keys are present, `parse_status` never
raises either missing-field error, whatever the associated values — only
the status value is inspected further — and a record whose name value is
`None` with a recognised status succeeds, interpolating the value
literally as the quoted name (`"None"`). -/
theorem parse_status_key_presence_only (entries : List (String × PyVal))
    (hn : (entries.lookup "homework_name").isSome = true)
    (hs : (entries.lookup "status").isSome = true) :
    parse_status (PyVal.dict entries) ≠
      .error (.typeError (MISSING_HOMEWORK_NAME_MESSAGE (pyStr (PyVal.dict entries)))) ∧
    parse_status (PyVal.dict entries) ≠
      .error (.typeError (MISSING_HOMEWORK_STATUS_MESSAGE (pyStr (PyVal.dict entries)))) ∧
    parse_status (PyVal.dict [("homework_name", PyVal.none),
        ("status", PyVal.str "approved")]) =
      .ok "Изменился статус проверки работы \"None\". Работа проверена: ревьюеру всё понравилось. Ура!" := by
  obtain ⟨name, hn₂⟩ := Option.isSome_iff_exists.mp hn
  obtain ⟨status, hs₂⟩ := Option.isSome_iff_exists.mp hs
  refine ⟨?_, ?_, rfl⟩
  · cases status with
    | str s =>
      cases hv : HOMEWORK_VERDICTS.lookup s with
      | some v =>
        rw [parse_status_eq_ok entries name s v hn₂ hs₂ hv]
        simp
      | none =>
        rw [parse_status_eq_unknown_str entries name s hn₂ hs₂ hv]
        exact typeError_result_ne _ _ (unexpected_ne_missing_name s _)
    | int n =>
      rw [parse_status_eq_unknown_int entries name n hn₂ hs₂]
      exact typeError_result_ne _ _ (unexpected_ne_missing_name _ _)
    | none =>
      rw [parse_status_eq_unknown_none entries name hn₂ hs₂]
      exact typeError_result_ne _ _ (unexpected_ne_missing_name _ _)
    | list l =>
      rw [parse_status_eq_unhashable_list entries name l hn₂ hs₂]
      exact typeError_result_ne _ _ (unhashable_list_ne_missing_name _)
    | dict d =>
      rw [parse_status_eq_unhashable_dict entries name d hn₂ hs₂]
      exact typeError_result_ne _ _ (unhashable_dict_ne_missing_name _)
  · cases status with
    | str s =>
      cases hv : HOMEWORK_VERDICTS.lookup s with
      | some v =>
        rw [parse_status_eq_ok entries name s v hn₂ hs₂ hv]
        simp
      | none =>
        rw [parse_status_eq_unknown_str entries name s hn₂ hs₂ hv]
        exact typeError_result_ne _ _ (unexpected_ne_missing_status s _)
    | int n =>
      rw [parse_status_eq_unknown_int entries name n hn₂ hs₂]
      exact typeError_result_ne _ _ (unexpected_ne_missing_status _ _)
    | none =>
      rw [parse_status_eq_unknown_none entries name hn₂ hs₂]
      exact typeError_result_ne _ _ (unexpected_ne_missing_status _ _)
    | list l =>
      rw [parse_status_eq_unhashable_list entries name l hn₂ hs₂]
      exact typeError_result_ne _ _ (unhashable_list_ne_missing_status _)
    | dict d =>
      rw [parse_status_eq_unhashable_dict entries name d hn₂ hs₂]
      exact typeError_result_ne _ _ (unhashable_dict_ne_missing_status _)

/-- Witness for C10 at a record whose name value is `None`. -/
theorem parse_status_key_presence_only_witness :
    parse_status (PyVal.dict [("homework_name", PyVal.none),
        ("status", PyVal.str "approved")]) ≠
      .error (.typeError (MISSING_HOMEWORK_NAME_MESSAGE
        (pyStr (PyVal.dict [("homework_name", PyVal.none),
          ("status", PyVal.str "approved")])))) ∧
    parse_status (PyVal.dict [("homework_name", PyVal.none),
        ("status", PyVal.str "approved")]) ≠
      .error (.typeError (MISSING_HOMEWORK_STATUS_MESSAGE
        (pyStr (PyVal.dict [("homework_name", PyVal.none),
          ("status", PyVal.str "approved")])))) ∧
    parse_status (PyVal.dict [("homework_name", PyVal.none),
        ("status", PyVal.str "approved")]) =
      .ok "Изменился статус проверки работы \"None\". Работа проверена: ревьюеру всё понравилось. Ура!" :=
  parse_status_key_presence_only
    [("homework_name", PyVal.none), ("status", PyVal.str "approved")] rfl rfl

end HomeworkBot
